import Mathlib

/-!
Verification of the keba_home_api charging-session agent.

Shallow embedding of the Rust sources:
  - `src/domain/session_state.rs`  (debounced plug-state machine)
  - `src/domain/session_energy.rs` (session energy accounting)
  - `src/domain/keba_payload.rs`   (lenient report parsing)
  - `src/adapters/db.rs`           (schema migrations, schema data)
  - `src/app/runtime.rs`           (unplug handling, persistence retry policy)

Modelling conventions: Rust `i64` timestamps are `Int` (millisecond epoch
values never approach the 64-bit range, so wrap-around is immaterial);
Rust `f64` energy values are `ℚ` (the payloads only ever contain finite
decimal literals, and every claim under study concerns selection, clamping
and sign, not rounding); `usize` counters are `ℕ`; fallible functions
return `Except`.  Effectful collaborators (charger client, database,
clock) are passed in as explicit values or oracles.
-/

namespace Keba

/-! ## src/domain/session_state.rs -/

/-- Rust `TimestampMs(pub i64)` is modelled as a bare `Int`. -/
abbrev TimestampMs := Int

inductive SessionTransition where
  | Plugged (plugged_at : TimestampMs)
  | Unplugged (plugged_at : TimestampMs) (unplugged_at : TimestampMs)
  deriving DecidableEq, Repr

structure Candidate where
  plugged : Bool
  count : Nat
  first_observed_at : TimestampMs
  deriving DecidableEq, Repr

structure SessionStateMachine where
  debounce_samples : Nat
  stable_plugged : Option Bool
  candidate : Option Candidate
  active_session_started_at : Option TimestampMs
  deriving DecidableEq, Repr

namespace SessionStateMachine

def new (debounce_samples : Nat) : SessionStateMachine :=
  { debounce_samples := max debounce_samples 1
    stable_plugged := none
    candidate := none
    active_session_started_at := none }

/-- `SessionStateMachine::accept_candidate_at`; the Rust method mutates
`self` and returns a `bool`, modelled here as returning the pair. -/
def accept_candidate_at (m : SessionStateMachine) (plugged_observation : Bool)
    (observed_at : TimestampMs) : Bool × SessionStateMachine :=
  match m.candidate with
  | some c =>
    if c.plugged = plugged_observation then
      let c2 : Candidate := { c with count := c.count + 1 }
      (decide (m.debounce_samples ≤ c2.count), { m with candidate := some c2 })
    else
      (decide (m.debounce_samples = 1),
        { m with candidate := some ⟨plugged_observation, 1, observed_at⟩ })
  | none =>
      (decide (m.debounce_samples = 1),
        { m with candidate := some ⟨plugged_observation, 1, observed_at⟩ })

/-- `SessionStateMachine::accept_candidate_with_clock`; the `Clock`
collaborator is modelled by passing the value of `clock.now()`. -/
def accept_candidate_with_clock (m : SessionStateMachine) (plugged_observation : Bool)
    (now : TimestampMs) : Bool × SessionStateMachine :=
  match m.candidate with
  | some c =>
    if c.plugged = plugged_observation then
      let c2 : Candidate := { c with count := c.count + 1 }
      (decide (m.debounce_samples ≤ c2.count), { m with candidate := some c2 })
    else
      (decide (m.debounce_samples = 1),
        { m with candidate := some ⟨plugged_observation, 1, now⟩ })
  | none =>
      (decide (m.debounce_samples = 1),
        { m with candidate := some ⟨plugged_observation, 1, now⟩ })

/-- `SessionStateMachine::observe_at`. -/
def observe_at (m : SessionStateMachine) (plugged_observation : Bool)
    (observed_at : TimestampMs) : Option SessionTransition × SessionStateMachine :=
  match m.stable_plugged with
  | none =>
    let r := m.accept_candidate_at plugged_observation observed_at
    if r.1 then
      (none, { r.2 with stable_plugged := some plugged_observation, candidate := none })
    else
      (none, r.2)
  | some stable =>
    if stable = plugged_observation then
      (none, { m with candidate := none })
    else
      let r := m.accept_candidate_at plugged_observation observed_at
      if r.1 then
        let transition_at :=
          match r.2.candidate with
          | some c => c.first_observed_at
          | none => observed_at
        let m2 : SessionStateMachine :=
          { r.2 with stable_plugged := some plugged_observation, candidate := none }
        if !stable && plugged_observation then
          (some (SessionTransition.Plugged transition_at),
            { m2 with active_session_started_at := some transition_at })
        else if stable && !plugged_observation then
          let unplugged_at := transition_at
          let plugged_at := m2.active_session_started_at.getD unplugged_at
          (some (SessionTransition.Unplugged plugged_at unplugged_at),
            { m2 with active_session_started_at := none })
        else
          (none, m2)
      else
        (none, r.2)

/-- `SessionStateMachine::observe`; the `Clock` collaborator is modelled by
passing the value `clock.now()` would return during this call (the Rust
method reads the clock at most once). -/
def observe (m : SessionStateMachine) (plugged_observation : Bool)
    (now : TimestampMs) : Option SessionTransition × SessionStateMachine :=
  match m.stable_plugged with
  | none =>
    let r := m.accept_candidate_at plugged_observation 0
    if r.1 then
      (none, { r.2 with stable_plugged := some plugged_observation, candidate := none })
    else
      (none, r.2)
  | some stable =>
    if stable = plugged_observation then
      (none, { m with candidate := none })
    else
      let r := m.accept_candidate_with_clock plugged_observation now
      if r.1 then
        let transition_at :=
          match r.2.candidate with
          | some c => c.first_observed_at
          | none => now
        let m2 : SessionStateMachine :=
          { r.2 with stable_plugged := some plugged_observation, candidate := none }
        if !stable && plugged_observation then
          (some (SessionTransition.Plugged transition_at),
            { m2 with active_session_started_at := some transition_at })
        else if stable && !plugged_observation then
          let unplugged_at := transition_at
          let plugged_at := m2.active_session_started_at.getD unplugged_at
          (some (SessionTransition.Unplugged plugged_at unplugged_at),
            { m2 with active_session_started_at := none })
        else
          (none, m2)
      else
        (none, r.2)

end SessionStateMachine

/-- One poll step: feed a single observation and keep the updated machine. -/
def stepMachine (m : SessionStateMachine) (ob : Bool × TimestampMs) : SessionStateMachine :=
  (m.observe_at ob.1 ob.2).2

/-- Machine obtained after feeding a whole observation sequence through
`observe_at` (each element is an observed plug value with its timestamp). -/
def runMachine (m : SessionStateMachine) (obs : List (Bool × TimestampMs)) : SessionStateMachine :=
  obs.foldl stepMachine m

/-- The emitted transitions (one `Option` per observation) along a run. -/
def runOutputs : SessionStateMachine → List (Bool × TimestampMs) → List (Option SessionTransition)
  | _, [] => []
  | m, ob :: rest => (m.observe_at ob.1 ob.2).1 :: runOutputs (m.observe_at ob.1 ob.2).2 rest

/-- The timestamp a transition "carries": the moment the plug state changed
(`plugged_at` for `Plugged`, `unplugged_at` for `Unplugged`). -/
def transitionTimestamp : SessionTransition → TimestampMs
  | .Plugged plugged_at => plugged_at
  | .Unplugged _ unplugged_at => unplugged_at

/-- Length of the leading run of observations of value `b` in a reversed
observation list, i.e. how many consecutive times `b` was observed at the
end of the (unreversed) sequence. -/
def runCount (b : Bool) : List (Bool × TimestampMs) → Nat
  | [] => 0
  | (v, _) :: rest => if v = b then runCount b rest + 1 else 0

/-- Timestamp of the deepest element of the leading `b`-run of a reversed
observation list, i.e. the timestamp of the first observation of the
consecutive `b`-run ending the (unreversed) sequence; `d` is returned when
the run is empty. -/
def runStartTs (b : Bool) (d : TimestampMs) : List (Bool × TimestampMs) → TimestampMs
  | [] => d
  | (v, t) :: rest => if v = b then runStartTs b t rest else d

example : runCount true [(true, 5), (true, 3), (false, 1)] = 2 := by decide
example : runStartTs true 9 [(true, 5), (true, 3), (false, 1)] = 3 := by decide

lemma runCount_cons_match (b : Bool) (t : TimestampMs) (l : List (Bool × TimestampMs)) :
    runCount b ((b, t) :: l) = runCount b l + 1 := by
  simp [runCount]

lemma runCount_cons_mismatch {v b : Bool} (h : ¬ v = b) (t : TimestampMs)
    (l : List (Bool × TimestampMs)) : runCount b ((v, t) :: l) = 0 := by
  simp [runCount, h]

lemma runStartTs_cons_match (b : Bool) (d t : TimestampMs) (l : List (Bool × TimestampMs)) :
    runStartTs b d ((b, t) :: l) = runStartTs b t l := by
  simp [runStartTs]

lemma runStartTs_of_runCount_eq_zero {b : Bool} {l : List (Bool × TimestampMs)}
    (d : TimestampMs) (h : runCount b l = 0) : runStartTs b d l = d := by
  cases l with
  | nil => rfl
  | cons hd tl =>
    obtain ⟨v, t⟩ := hd
    by_cases hv : v = b
    · subst hv; simp [runCount] at h
    · simp [runStartTs, hv]

lemma runStartTs_default_irrelevant {b : Bool} {l : List (Bool × TimestampMs)}
    (d d' : TimestampMs) (h : runCount b l ≠ 0) : runStartTs b d l = runStartTs b d' l := by
  cases l with
  | nil => simp [runCount] at h
  | cons hd tl =>
    obtain ⟨v, t⟩ := hd
    by_cases hv : v = b
    · subst hv; simp [runStartTs]
    · simp [runCount, hv] at h

/-- Relation between the candidate stored by the machine and the already
processed observation prefix `p`, while the machine is in the stable phase
with stable value `s`. -/
def CandInv (N : Nat) (p : List (Bool × TimestampMs)) (s : Bool) :
    Option Candidate → Prop
  | some c =>
      c.plugged = !s ∧ 1 ≤ c.count ∧ c.count < N ∧
      c.count = runCount (!s) p.reverse ∧
      c.first_observed_at = runStartTs (!s) 0 p.reverse
  | none => runCount (!s) p.reverse = 0

/-- Reachable-state invariant of the debouncer along a run of `observe_at`. -/
def MachineInv (N : Nat) (p : List (Bool × TimestampMs)) (m : SessionStateMachine) : Prop :=
  m.debounce_samples = N ∧
  ∀ s, m.stable_plugged = some s → CandInv N p s m.candidate

set_option linter.unnecessarySeqFocus false in
lemma machineInv_step {N : Nat} (hN : 1 ≤ N) {p : List (Bool × TimestampMs)}
    {m : SessionStateMachine} (h : MachineInv N p m) (b : Bool) (t : TimestampMs) :
    MachineInv N (p ++ [(b, t)]) (m.observe_at b t).2 := by
  obtain ⟨hds, hsp⟩ := h
  have hrev : (p ++ [(b, t)]).reverse = (b, t) :: p.reverse := by simp
  obtain ⟨ds, sp, cand, act⟩ := m
  simp only at hds hsp
  subst hds
  rw [MachineInv]
  cases sp with
  | none =>
    cases cand with
    | none =>
      constructor <;>
        (simp only [SessionStateMachine.observe_at, SessionStateMachine.accept_candidate_at]
         split_ifs <;> simp_all [CandInv, runCount] <;> try omega)
    | some c =>
      constructor <;>
        (simp only [SessionStateMachine.observe_at, SessionStateMachine.accept_candidate_at]
         split_ifs <;> simp_all [CandInv, runCount] <;> try omega)
  | some s =>
    have hc := hsp s rfl
    by_cases hsb : s = b
    · subst hsb
      constructor <;>
        (simp only [SessionStateMachine.observe_at]
         split_ifs <;> simp_all [CandInv, runCount] <;> try omega)
    · cases cand with
      | none =>
        simp only [CandInv] at hc
        have hz : runStartTs (!s) t p.reverse = t := runStartTs_of_runCount_eq_zero t hc
        cases s <;> cases b <;> (try exact absurd rfl hsb) <;>
          (simp only [SessionStateMachine.observe_at, SessionStateMachine.accept_candidate_at]
           simp only [Bool.not_false, Bool.not_true, Bool.true_and, Bool.false_and,
             Bool.and_true, Bool.and_false, Bool.and_self]
           constructor <;> split_ifs <;>
             simp_all [CandInv, runCount, runStartTs_cons_match] <;> try omega)
      | some c =>
        simp only [CandInv] at hc
        obtain ⟨hcp, hc1, hclt, hcnt, hfst⟩ := hc
        have hcount_ne : runCount (!s) p.reverse ≠ 0 := by omega
        have hstart : runStartTs (!s) 0 p.reverse = runStartTs (!s) t p.reverse :=
          runStartTs_default_irrelevant 0 t hcount_ne
        cases s <;> cases b <;> (try exact absurd rfl hsb) <;>
          (simp only [SessionStateMachine.observe_at, SessionStateMachine.accept_candidate_at]
           simp only [Bool.not_false, Bool.not_true, Bool.true_and, Bool.false_and,
             Bool.and_true, Bool.and_false, Bool.and_self]
           constructor <;> split_ifs <;>
             simp_all [CandInv, runCount, runStartTs_cons_match] <;> try omega)

lemma runMachine_append_singleton (m : SessionStateMachine)
    (p : List (Bool × TimestampMs)) (ob : Bool × TimestampMs) :
    runMachine m (p ++ [ob]) = ((runMachine m p).observe_at ob.1 ob.2).2 := by
  simp [runMachine, List.foldl_append, stepMachine]

lemma machineInv_run {N : Nat} (hN : 1 ≤ N) (p : List (Bool × TimestampMs)) :
    MachineInv N p (runMachine (SessionStateMachine.new N) p) := by
  induction p using List.reverseRecOn with
  | nil =>
    refine ⟨?_, ?_⟩
    · simp [runMachine, SessionStateMachine.new]; omega
    · intro s hs
      simp [runMachine, SessionStateMachine.new] at hs
  | append_singleton p ob ih =>
    obtain ⟨b, t⟩ := ob
    rw [runMachine_append_singleton]
    exact machineInv_step hN ih b t

/-- Claim C1: feeding any observation sequence to `observe_at` on a machine
built with debounce parameter `N ≥ 1`: (a) while `stable_plugged` is still
unset no transition is ever emitted (initial stabilization); (b) once a
stable value `s` is established, the next observation `(b, t)` emits a
transition exactly when `b` is the opposite of `s` and has, with this
observation, been observed `N` consecutive times; (c) the emitted
transition carries the timestamp of the first of those `N` consecutive
observations, not of the observation that crossed the threshold. -/
theorem observe_at_debounce_characterization
    (N : Nat) (hN : 1 ≤ N) (p : List (Bool × TimestampMs)) (b : Bool) (t : TimestampMs)
    (m : SessionStateMachine) (hm : m = runMachine (SessionStateMachine.new N) p) :
    (m.stable_plugged = none → (m.observe_at b t).1 = none) ∧
    (∀ s, m.stable_plugged = some s →
      ((∃ tr, (m.observe_at b t).1 = some tr) ↔
          (b = !s ∧ runCount b ((b, t) :: p.reverse) = N)) ∧
      (∀ tr, (m.observe_at b t).1 = some tr →
        transitionTimestamp tr = runStartTs b t ((b, t) :: p.reverse))) := by
  have hinv := machineInv_run hN p
  rw [← hm] at hinv
  obtain ⟨hds, hsp⟩ := hinv
  obtain ⟨ds, sp, cand, act⟩ := m
  simp only at hds hsp
  subst hds
  constructor
  · intro hnone
    simp only at hnone
    subst hnone
    cases cand <;>
      (simp only [SessionStateMachine.observe_at, SessionStateMachine.accept_candidate_at]
       split_ifs <;> rfl)
  · intro s hs
    simp only at hs
    subst hs
    have hc := hsp s rfl
    by_cases hsb : s = b
    · subst hsb
      constructor
      · simp [SessionStateMachine.observe_at]
      · intro tr htr
        simp [SessionStateMachine.observe_at] at htr
    · cases cand with
      | none =>
        simp only [CandInv] at hc
        have hz : runStartTs b t p.reverse = t := by
          apply runStartTs_of_runCount_eq_zero
          have hbs : b = !s := by cases s <;> cases b <;> simp_all
          rw [← hbs] at hc
          exact hc
        cases s <;> cases b <;> (try exact absurd rfl hsb) <;>
          (constructor <;>
            (simp only [SessionStateMachine.observe_at, SessionStateMachine.accept_candidate_at]
             simp only [Bool.not_false, Bool.not_true, Bool.true_and, Bool.false_and,
               Bool.and_true, Bool.and_false, Bool.and_self]
             split_ifs <;>
               simp_all [runCount, runStartTs_cons_match, transitionTimestamp] <;> try omega))
      | some c =>
        simp only [CandInv] at hc
        obtain ⟨hcp, hc1, hclt, hcnt, hfst⟩ := hc
        have hcount_ne : runCount (!s) p.reverse ≠ 0 := by omega
        have hstart : runStartTs (!s) 0 p.reverse = runStartTs (!s) t p.reverse :=
          runStartTs_default_irrelevant 0 t hcount_ne
        cases s <;> cases b <;> (try exact absurd rfl hsb) <;>
          (constructor <;>
            (simp only [SessionStateMachine.observe_at, SessionStateMachine.accept_candidate_at]
             simp only [Bool.not_false, Bool.not_true, Bool.true_and, Bool.false_and,
               Bool.and_true, Bool.and_false, Bool.and_self]
             split_ifs <;>
               simp_all [runCount, runStartTs_cons_match, transitionTimestamp] <;> try omega))

/-- Witness for C1: with `N = 2` and prefix `[(false, 1000), (false, 1100),
(true, 2000)]`, the observation `(true, 3000)` completes two consecutive
`true` observations, so a transition is emitted and it carries `2000`, the
timestamp of the first observation of the run. -/
theorem observe_at_debounce_characterization_witness :
    (∃ tr, ((runMachine (SessionStateMachine.new 2)
        [(false, 1000), (false, 1100), (true, 2000)]).observe_at true 3000).1 = some tr) ∧
    (∀ tr, ((runMachine (SessionStateMachine.new 2)
        [(false, 1000), (false, 1100), (true, 2000)]).observe_at true 3000).1 = some tr →
      transitionTimestamp tr = 2000) := by
  have h := observe_at_debounce_characterization 2 (by norm_num)
      [(false, 1000), (false, 1100), (true, 2000)] true 3000 _ rfl
  have hstable : (runMachine (SessionStateMachine.new 2)
      [(false, 1000), (false, 1100), (true, 2000)]).stable_plugged = some false := by decide
  refine ⟨((h.2 false hstable).1).mpr (by decide), ?_⟩
  intro tr htr
  have hts := (h.2 false hstable).2 tr htr
  have hval : runStartTs true 3000
      ((true, 3000) :: [((false : Bool), (1000 : Int)), (false, 1100), (true, 2000)].reverse) =
      2000 := by decide
  rw [hval] at hts
  exact hts

/-- Claim C10: `SessionStateMachine.new` stores `max n 1` as
`debounce_samples` (so the field is always at least 1), no operation ever
changes the field, and a machine built with `n = 0` behaves identically to
one built with `n = 1` on every observation sequence. -/
theorem debounce_samples_invariant :
    (∀ n, (SessionStateMachine.new n).debounce_samples = max n 1 ∧
          1 ≤ (SessionStateMachine.new n).debounce_samples) ∧
    (∀ (m : SessionStateMachine) (b : Bool) (t : TimestampMs),
        ((m.observe_at b t).2).debounce_samples = m.debounce_samples ∧
        ((m.observe b t).2).debounce_samples = m.debounce_samples ∧
        ((m.accept_candidate_at b t).2).debounce_samples = m.debounce_samples ∧
        ((m.accept_candidate_with_clock b t).2).debounce_samples = m.debounce_samples) ∧
    SessionStateMachine.new 0 = SessionStateMachine.new 1 ∧
    (∀ obs, runOutputs (SessionStateMachine.new 0) obs =
              runOutputs (SessionStateMachine.new 1) obs ∧
            runMachine (SessionStateMachine.new 0) obs =
              runMachine (SessionStateMachine.new 1) obs) := by
  refine ⟨?_, ?_, rfl, ?_⟩
  · intro n
    exact ⟨rfl, Nat.le_max_right n 1⟩
  · intro m b t
    obtain ⟨ds, sp, cand, act⟩ := m
    refine ⟨?_, ?_, ?_, ?_⟩ <;>
      (cases sp <;> cases cand <;>
        simp only [SessionStateMachine.observe_at, SessionStateMachine.observe,
          SessionStateMachine.accept_candidate_at,
          SessionStateMachine.accept_candidate_with_clock] <;>
        (try split_ifs) <;> rfl)
  · intro obs
    exact ⟨rfl, rfl⟩

/-! ## src/domain/session_energy.rs -/

/-- Energy values are Rust `f64`; modelled as `ℚ` (see the header note). -/
structure EnergySnapshot where
  present_session_kwh : Option ℚ
  total_kwh : Option ℚ
  deriving DecidableEq, Repr

inductive EnergySource where
  | PresentSession
  | PresentSessionDelta
  | TotalDelta
  deriving DecidableEq, Repr

inductive EnergyWarning where
  | NegativePresentSessionValueClamped
  | NegativePresentSessionDeltaClamped
  | NegativeTotalDeltaClamped
  deriving DecidableEq, Repr

structure SessionEnergyResult where
  kwh : ℚ
  source : EnergySource
  warnings : List EnergyWarning
  deriving DecidableEq, Repr

inductive EnergyComputationError where
  | NoUsableEnergyData
  deriving DecidableEq, Repr

/-- `compute_session_kwh`; `start` is `Option<&EnergySnapshot>`. -/
def compute_session_kwh (start : Option EnergySnapshot) (end_snapshot : EnergySnapshot) :
    Except EnergyComputationError SessionEnergyResult :=
  match end_snapshot.present_session_kwh with
  | some end_present =>
    match start.bind (fun snapshot => snapshot.present_session_kwh) with
    | some start_present =>
      if end_present - start_present < 0 then
        .ok ⟨0, .PresentSessionDelta, [.NegativePresentSessionDeltaClamped]⟩
      else
        .ok ⟨end_present - start_present, .PresentSessionDelta, []⟩
    | none =>
      if end_present < 0 then
        .ok ⟨0, .PresentSession, [.NegativePresentSessionValueClamped]⟩
      else
        .ok ⟨end_present, .PresentSession, []⟩
  | none =>
    match start.bind (fun snapshot => snapshot.total_kwh), end_snapshot.total_kwh with
    | some start_total, some end_total =>
      if end_total - start_total < 0 then
        .ok ⟨0, .TotalDelta, [.NegativeTotalDeltaClamped]⟩
      else
        .ok ⟨end_total - start_total, .TotalDelta, []⟩
    | _, _ => .error .NoUsableEnergyData

/-- The raw value the priority order of `compute_session_kwh` selects
before any clamping (present-session delta, then absolute present-session
value, then total delta); `none` when no source is usable. -/
def selected_raw (start : Option EnergySnapshot) (end_snapshot : EnergySnapshot) : Option ℚ :=
  match end_snapshot.present_session_kwh with
  | some end_present =>
    match start.bind (fun snapshot => snapshot.present_session_kwh) with
    | some start_present => some (end_present - start_present)
    | none => some end_present
  | none =>
    match start.bind (fun snapshot => snapshot.total_kwh), end_snapshot.total_kwh with
    | some start_total, some end_total => some (end_total - start_total)
    | _, _ => none

/-- The warning `compute_session_kwh` emits when the value selected for a
given source is negative. -/
def clamp_warning : EnergySource → EnergyWarning
  | .PresentSession => .NegativePresentSessionValueClamped
  | .PresentSessionDelta => .NegativePresentSessionDeltaClamped
  | .TotalDelta => .NegativeTotalDeltaClamped

/-- Helper shared by several claims: a successful result with a non-empty
warning list always has `kwh = 0` and exactly the single warning matching
its source. -/
lemma compute_session_kwh_warnings_zero (start : Option EnergySnapshot)
    (end_snapshot : EnergySnapshot) (r : SessionEnergyResult)
    (h : compute_session_kwh start end_snapshot = .ok r) (hw : r.warnings ≠ []) :
    r.kwh = 0 ∧ r.warnings = [clamp_warning r.source] := by
  unfold compute_session_kwh at h
  split at h <;> [skip; (split at h <;> [skip; (simp at h)])]
  · split at h <;> split_ifs at h <;>
      (injection h with h; subst h; simp_all [clamp_warning])
  · split_ifs at h <;> (injection h with h; subst h; simp_all [clamp_warning])

/-- Claim C2: `compute_session_kwh` selects its source by strict priority:
present-session delta when both present values exist, else the absolute
present-session value, else the total delta when both totals exist, and
otherwise it fails with `NoUsableEnergyData`; the produced kwh is the
selected value clamped at 0, with the matching warning exactly when
clamping occurred. -/
theorem compute_session_kwh_priority (start : Option EnergySnapshot)
    (end_snapshot : EnergySnapshot) :
    (∀ ep sp, end_snapshot.present_session_kwh = some ep →
      start.bind (fun snapshot => snapshot.present_session_kwh) = some sp →
      compute_session_kwh start end_snapshot =
        .ok ⟨max (ep - sp) 0, .PresentSessionDelta,
             if ep - sp < 0 then [.NegativePresentSessionDeltaClamped] else []⟩) ∧
    (∀ ep, end_snapshot.present_session_kwh = some ep →
      start.bind (fun snapshot => snapshot.present_session_kwh) = none →
      compute_session_kwh start end_snapshot =
        .ok ⟨max ep 0, .PresentSession,
             if ep < 0 then [.NegativePresentSessionValueClamped] else []⟩) ∧
    (∀ st et, end_snapshot.present_session_kwh = none →
      start.bind (fun snapshot => snapshot.total_kwh) = some st →
      end_snapshot.total_kwh = some et →
      compute_session_kwh start end_snapshot =
        .ok ⟨max (et - st) 0, .TotalDelta,
             if et - st < 0 then [.NegativeTotalDeltaClamped] else []⟩) ∧
    (end_snapshot.present_session_kwh = none →
      (start.bind (fun snapshot => snapshot.total_kwh) = none ∨
        end_snapshot.total_kwh = none) →
      compute_session_kwh start end_snapshot = .error .NoUsableEnergyData) := by
  refine ⟨?_, ?_, ?_, ?_⟩
  · intro ep sp hep hsp
    simp only [compute_session_kwh, hep, hsp]
    split_ifs with h
    · rw [max_eq_right h.le]
    · rw [max_eq_left (not_lt.mp h)]
  · intro ep hep hsp
    simp only [compute_session_kwh, hep, hsp]
    split_ifs with h
    · rw [max_eq_right h.le]
    · rw [max_eq_left (not_lt.mp h)]
  · intro st et hep hst het
    simp only [compute_session_kwh, hep, hst, het]
    split_ifs with h
    · rw [max_eq_right h.le]
    · rw [max_eq_left (not_lt.mp h)]
  · intro hep hnone
    rcases hnone with hst | het
    · simp [compute_session_kwh, hep, hst]
    · cases hst : start.bind (fun snapshot => snapshot.total_kwh) <;>
        simp [compute_session_kwh, hep, het, hst]

/-- Witness for C2: each of the four priority branches evaluated at a
concrete pair of snapshots. -/
theorem compute_session_kwh_priority_witness :
    (compute_session_kwh (some ⟨some 1, none⟩) ⟨some 3, some 7⟩ =
      .ok ⟨max ((3:ℚ) - 1) 0, .PresentSessionDelta,
           if (3:ℚ) - 1 < 0 then [.NegativePresentSessionDeltaClamped] else []⟩) ∧
    (compute_session_kwh none ⟨some (-2), some 7⟩ =
      .ok ⟨max (-2:ℚ) 0, .PresentSession,
           if (-2:ℚ) < 0 then [.NegativePresentSessionValueClamped] else []⟩) ∧
    (compute_session_kwh (some ⟨none, some 9⟩) ⟨none, some 4⟩ =
      .ok ⟨max ((4:ℚ) - 9) 0, .TotalDelta,
           if (4:ℚ) - 9 < 0 then [.NegativeTotalDeltaClamped] else []⟩) ∧
    (compute_session_kwh none ⟨none, some 4⟩ = .error .NoUsableEnergyData) :=
  ⟨(compute_session_kwh_priority (some ⟨some 1, none⟩) ⟨some 3, some 7⟩).1 3 1 rfl rfl,
   (compute_session_kwh_priority none ⟨some (-2), some 7⟩).2.1 (-2) rfl rfl,
   (compute_session_kwh_priority (some ⟨none, some 9⟩) ⟨none, some 4⟩).2.2.1 9 4 rfl rfl rfl,
   (compute_session_kwh_priority none ⟨none, some 4⟩).2.2.2 rfl (Or.inl rfl)⟩

/-- Claim C7: whenever `compute_session_kwh` succeeds the kwh is
non-negative; the warnings list is non-empty exactly when the selected raw
value or delta was negative, and in that case the kwh is 0 and the single
warning names the clamped source. -/
theorem compute_session_kwh_nonneg (start : Option EnergySnapshot)
    (end_snapshot : EnergySnapshot) (r : SessionEnergyResult)
    (h : compute_session_kwh start end_snapshot = .ok r) :
    0 ≤ r.kwh ∧
    ∃ raw, selected_raw start end_snapshot = some raw ∧
      (r.warnings ≠ [] ↔ raw < 0) ∧
      (raw < 0 → r.kwh = 0 ∧ r.warnings = [clamp_warning r.source]) := by
  rcases hep : end_snapshot.present_session_kwh with _ | ep
  · rcases hst : start.bind (fun snapshot => snapshot.total_kwh) with _ | st
    · simp [compute_session_kwh, hep, hst] at h
    · rcases het : end_snapshot.total_kwh with _ | et
      · simp [compute_session_kwh, hep, hst, het] at h
      · by_cases hlt : et - st < 0 <;>
          simp only [compute_session_kwh, hep, hst, het, hlt, if_true, if_false,
            reduceIte] at h <;>
        injection h with h <;> subst h <;>
          refine ⟨by simp; try linarith, et - st,
            by simp [selected_raw, hep, hst, het], by simp [hlt], ?_⟩ <;>
          simp_all [clamp_warning]
  · rcases hsp : start.bind (fun snapshot => snapshot.present_session_kwh) with _ | sp
    · by_cases hlt : ep < 0 <;>
        simp only [compute_session_kwh, hep, hsp, hlt, if_true, if_false, reduceIte] at h <;>
      injection h with h <;> subst h <;>
        refine ⟨by simp; try linarith, ep,
          by simp [selected_raw, hep, hsp], by simp [hlt], ?_⟩ <;>
        simp_all [clamp_warning]
    · by_cases hlt : ep - sp < 0 <;>
        simp only [compute_session_kwh, hep, hsp, hlt, if_true, if_false, reduceIte] at h <;>
      injection h with h <;> subst h <;>
        refine ⟨by simp; try linarith, ep - sp,
          by simp [selected_raw, hep, hsp], by simp [hlt], ?_⟩ <;>
        simp_all [clamp_warning]

/-- Witness for C7: the negative-delta case at concrete snapshots. -/
theorem compute_session_kwh_nonneg_witness :
    0 ≤ (⟨0, .PresentSessionDelta,
          [.NegativePresentSessionDeltaClamped]⟩ : SessionEnergyResult).kwh ∧
    ∃ raw, selected_raw (some ⟨some 5, none⟩) ⟨some 3, none⟩ = some raw ∧
      ((⟨0, .PresentSessionDelta,
          [.NegativePresentSessionDeltaClamped]⟩ : SessionEnergyResult).warnings ≠ [] ↔
        raw < 0) ∧
      (raw < 0 →
        (⟨0, .PresentSessionDelta,
            [.NegativePresentSessionDeltaClamped]⟩ : SessionEnergyResult).kwh = 0 ∧
        (⟨0, .PresentSessionDelta,
            [.NegativePresentSessionDeltaClamped]⟩ : SessionEnergyResult).warnings =
          [clamp_warning (⟨0, .PresentSessionDelta,
            [.NegativePresentSessionDeltaClamped]⟩ : SessionEnergyResult).source]) :=
  compute_session_kwh_nonneg (some ⟨some 5, none⟩) ⟨some 3, none⟩ _ (by norm_num [compute_session_kwh])

/-! ## src/domain/keba_payload.rs -/

/-- serde_json `Value`.  Numbers are modelled as `ℚ` (JSON numeric
literals are finite decimals, and `Number::as_f64` always yields a value).
An object is its list of entries in map iteration order; serde_json maps
have unique keys. -/
inductive Json where
  | null
  | bool (b : Bool)
  | num (value : ℚ)
  | str (s : String)
  | arr (items : List Json)
  | obj (entries : List (String × Json))

structure Report2 where
  plugged : Bool
  seconds : Option Nat
  deriving DecidableEq, Repr

structure Report3 where
  present_session_kwh : Option ℚ
  total_kwh : Option ℚ
  deriving DecidableEq, Repr

inductive ParseError where
  | InvalidPayloadType
  | MissingField (field : String)
  deriving DecidableEq, Repr

inductive EnergyUnit where
  | Wh
  | KWh

structure EnergyAlias where
  key : String
  unit : EnergyUnit

def PLUG_KEYS : List String := ["Plug", "plug", "plugged"]

def STATE_KEYS : List String := ["State", "state", "Charging state", "charging_state"]

def SECONDS_KEYS : List String := ["Seconds", "seconds", "Sec", "sec", "plugged seconds"]

def PRESENT_ENERGY_KEYS : List EnergyAlias :=
  [⟨"E pres", .Wh⟩, ⟨"Energy (present session)", .KWh⟩,
   ⟨"energy_present_session", .KWh⟩, ⟨"EnergyPresentSession", .KWh⟩]

def TOTAL_ENERGY_KEYS : List EnergyAlias :=
  [⟨"Total energy", .Wh⟩, ⟨"Energy (total)", .KWh⟩,
   ⟨"energy_total", .KWh⟩, ⟨"EnergyTotal", .KWh⟩]

/-- `normalize_key`: keep ASCII alphanumerics, lowercased. -/
def normalize_key (value : String) : String :=
  String.mk ((value.data.filter (fun c => c.isAlphanum)).map Char.toLower)

/-- `Map::get` on the modelled object (first entry with the exact key). -/
def lookup_key (object : List (String × Json)) (key : String) : Option Json :=
  (object.find? (fun entry => entry.1 == key)).map (fun entry => entry.2)

/-- `find_value`: first pass looks each alias up exactly, in alias order;
the second pass scans the object in iteration order for a key whose
normalized form matches a normalized alias. -/
def find_value (object : List (String × Json)) (aliases : List String) : Option Json :=
  match aliases.findSome? (fun a => lookup_key object a) with
  | some value => some value
  | none =>
    object.findSome? fun entry =>
      if (aliases.map normalize_key).contains (normalize_key entry.1) then some entry.2
      else none

/-- Value of a digit string. -/
def digitsToNat (l : List Char) : Nat :=
  l.foldl (fun acc c => acc * 10 + (c.toNat - '0'.toNat)) 0

/-- Model of Rust `str::parse::<f64>()` restricted to the character set
that normalized tokens can contain (ASCII digits, at most one dot, minus
signs): `[+-]? (digits ['.' digits*] | '.' digits+)`, no exponent; the
mantissa is exact here (`ℚ`) where Rust rounds to the nearest double. -/
def parse_rust_f64 (s : String) : Option ℚ :=
  let (neg, rest) :=
    match s.data with
    | '-' :: r => (true, r)
    | '+' :: r => (false, r)
    | r => (false, r)
  let intPart := rest.takeWhile (fun c => c.isDigit)
  let afterInt := rest.dropWhile (fun c => c.isDigit)
  let value? : Option ℚ :=
    match afterInt with
    | [] => if intPart = [] then none else some (mkRat (Int.ofNat (digitsToNat intPart)) 1)
    | '.' :: fracRest =>
      let fracPart := fracRest.takeWhile (fun c => c.isDigit)
      let afterFrac := fracRest.dropWhile (fun c => c.isDigit)
      if afterFrac = [] then
        if intPart = [] ∧ fracPart = [] then none
        else some (mkRat
          (Int.ofNat (digitsToNat intPart * 10 ^ fracPart.length + digitsToNat fracPart))
          (10 ^ fracPart.length))
      else none
    | _ => none
  value?.map (fun v => if neg then -v else v)

/-- A character `extract_numeric_tokens` keeps. -/
def token_char (c : Char) : Bool :=
  c.isDigit || c = ',' || c = '.' || c = '-'

/-- `extract_numeric_tokens`. -/
def extract_numeric_tokens (text : String) : List String :=
  let step := fun (acc : List String × String) (c : Char) =>
    if token_char c then (acc.1, acc.2.push c)
    else if acc.2 ≠ "" then (acc.1 ++ [acc.2], "") else acc
  match text.data.foldl step ([], "") with
  | (tokens, current) => if current ≠ "" then tokens ++ [current] else tokens

/-- Index of the last occurrence of `c` (Rust `rfind`, used only to compare
positions, so a character index serves for the byte index). -/
def last_index_of (c : Char) (l : List Char) : Option Nat :=
  match l.reverse.findIdx? (fun d => d == c) with
  | some i => some (l.length - 1 - i)
  | none => none

/-- Model of Rust `str::replace` for the single-character patterns the
source uses (every occurrence of `c` is replaced by `r`); written out on
the character list because the built-in `String.replace` does not reduce
in the kernel. -/
def replace_char (s : String) (c : Char) (r : String) : String :=
  String.mk (s.data.foldr (fun d acc => if d = c then r.data ++ acc else d :: acc) [])

/-- `normalize_numeric_token`. -/
def normalize_numeric_token (token : String) : Option String :=
  if 0 < token.data.count ',' ∧ 0 < token.data.count '.' then
    match last_index_of ',' token.data, last_index_of '.' token.data with
    | some comma_index, some dot_index =>
      if dot_index < comma_index then
        some (replace_char (replace_char token '.' "") ',' ".")
      else
        some (replace_char token ',' "")
    | _, _ => none
  else if 0 < token.data.count ',' then
    some (replace_char token ',' ".")
  else if 1 < token.data.count '.' then
    some (replace_char token '.' "")
  else
    some token

/-- `parse_f64_from_text`. -/
def parse_f64_from_text (text : String) : Option ℚ :=
  (extract_numeric_tokens text).findSome? fun token =>
    (normalize_numeric_token token).bind parse_rust_f64

/-- `parse_f64`. -/
def parse_f64 : Json → Option ℚ
  | .num number => some number
  | .str text => parse_f64_from_text text
  | _ => none

/-- `find_number`. -/
def find_number (object : List (String × Json)) (aliases : List String) : Option ℚ :=
  (find_value object aliases).bind parse_f64

/-- Division by 1000 (the Wh → kWh conversion), written with `mkRat`
rather than `/` because `Rat.inv` is irreducible and would block kernel
evaluation; `divBy1000_eq` below proves it equal to division by 1000. -/
def divBy1000 (q : ℚ) : ℚ := mkRat q.num (q.den * 1000)

lemma divBy1000_eq (q : ℚ) : divBy1000 q = q / 1000 := by
  rw [divBy1000, Rat.mkRat_eq_div]
  rw [show ((q.den * 1000 : ℕ) : ℚ) = (q.den : ℚ) * 1000 by push_cast; ring]
  rw [div_mul_eq_div_div, Rat.num_div_den]

/-- `find_energy_kwh`. -/
def find_energy_kwh (object : List (String × Json)) (aliases : List EnergyAlias) : Option ℚ :=
  aliases.findSome? fun a =>
    (find_value object [a.key]).bind fun value =>
      (parse_f64 value).map fun number =>
        match a.unit with
        | .Wh => divBy1000 number
        | .KWh => number

/-- `f64_to_non_negative_u64`; the finiteness test of the Rust function is
always true in the rational model, and for a non-negative value the Rust
`floor` plus `as u64` cast is the integer floor. -/
def f64_to_non_negative_u64 (value : ℚ) : Option Nat :=
  if value < 0 then none else some ((value.num / (value.den : Int)).toNat)

/-- `parse_report2`. -/
def parse_report2 (payload : Json) : Except ParseError Report2 :=
  match payload with
  | .obj object =>
    match ((find_number object PLUG_KEYS).map (fun value => decide (0 < value))).orElse
        (fun _ => (find_number object STATE_KEYS).map (fun value => decide (0 < value))) with
    | some plugged =>
      .ok ⟨plugged, (find_number object SECONDS_KEYS).bind f64_to_non_negative_u64⟩
    | none => .error (.MissingField "Plug|State")
  | _ => .error .InvalidPayloadType

/-- `parse_report3`. -/
def parse_report3 (payload : Json) : Except ParseError Report3 :=
  match payload with
  | .obj object =>
    if find_energy_kwh object PRESENT_ENERGY_KEYS = none ∧
        find_energy_kwh object TOTAL_ENERGY_KEYS = none then
      .error (.MissingField "E pres|Energy (present session)|Total energy")
    else
      .ok ⟨find_energy_kwh object PRESENT_ENERGY_KEYS, find_energy_kwh object TOTAL_ENERGY_KEYS⟩
  | _ => .error .InvalidPayloadType

instance {ε α : Type} [DecidableEq ε] [DecidableEq α] : DecidableEq (Except ε α) := fun a b =>
  match a, b with
  | .ok x, .ok y =>
    if h : x = y then isTrue (by rw [h]) else isFalse (fun hc => h (Except.ok.inj hc))
  | .error x, .error y =>
    if h : x = y then isTrue (by rw [h]) else isFalse (fun hc => h (Except.error.inj hc))
  | .ok _, .error _ => isFalse (fun hc => Except.noConfusion hc)
  | .error _, .ok _ => isFalse (fun hc => Except.noConfusion hc)

example : parse_report2 (Json.obj [("Plug", Json.num 7), ("Seconds", Json.num 4264958)]) =
    .ok ⟨true, some 4264958⟩ := by decide
example : parse_report2 (Json.obj [("state", Json.str "1"), ("seconds", Json.str "4264958")]) =
    .ok ⟨true, some 4264958⟩ := by decide
example : parse_report2 (Json.obj [("Charging state", Json.num 0), ("Plugged Seconds", Json.num 99)]) =
    .ok ⟨false, some 99⟩ := by decide
example : parse_report2 (Json.obj [("Seconds", Json.num 100)]) =
    .error (.MissingField "Plug|State") := by decide
example : parse_report2 (Json.arr [Json.num 1]) = .error .InvalidPayloadType := by decide
example : parse_report3 (Json.obj [("E pres", Json.num 10830), ("Total energy", Json.num 28193080)]) =
    .ok ⟨some (mkRat 1083 100), some (mkRat 2819308 100)⟩ := by decide
example : parse_report3 (Json.obj [("Energy (present session)", Json.str "10,83 kWh")]) =
    .ok ⟨some (mkRat 1083 100), none⟩ := by decide
example : parse_report3 (Json.obj [("Energy (total)", Json.str "28193.08")]) =
    .ok ⟨none, some (mkRat 2819308 100)⟩ := by decide
example : parse_report3 (Json.obj [("report", Json.num 3)]) =
    .error (.MissingField "E pres|Energy (present session)|Total energy") := by decide

/-- Counterexample to C8 as stated: in the object payload with entries
`Plug = -1` and `plugged = 7`, the alias key `plugged` yields the non-zero
number 7, so the claim says `plugged` must be true; but `parse_report2`
reports `plugged = false`, because the lookup takes the value of the first
matching alias (`Plug`, giving -1) and tests it with `> 0`, not with
"non-zero". -/
theorem parse_report2_plugged_counterexample :
    find_number [("Plug", Json.num (-1)), ("plugged", Json.num 7)] ["plugged"] = some 7 ∧
    (7 : ℚ) ≠ 0 ∧
    parse_report2 (Json.obj [("Plug", Json.num (-1)), ("plugged", Json.num 7)]) =
      .ok ⟨false, none⟩ := by
  refine ⟨by decide, by decide, by decide⟩

/-- Claim C8 (amended): for every JSON object payload, `parse_report2`
derives `plugged` from the first value produced by the alias and
normalized-key lookup over `Plug|plug|plugged`, parsed as a number and
compared with `> 0`; if that lookup yields no number it falls back to the
first number found for `State|state|Charging state|charging_state`
compared with `> 0`; and if neither lookup yields a number it fails with
the missing-field error. -/
theorem parse_report2_plugged_characterization (object : List (String × Json)) :
    (∀ v, find_number object PLUG_KEYS = some v →
      parse_report2 (Json.obj object) =
        .ok ⟨decide (0 < v), (find_number object SECONDS_KEYS).bind f64_to_non_negative_u64⟩) ∧
    (find_number object PLUG_KEYS = none →
      ∀ v, find_number object STATE_KEYS = some v →
        parse_report2 (Json.obj object) =
          .ok ⟨decide (0 < v), (find_number object SECONDS_KEYS).bind f64_to_non_negative_u64⟩) ∧
    (find_number object PLUG_KEYS = none → find_number object STATE_KEYS = none →
      parse_report2 (Json.obj object) = .error (.MissingField "Plug|State")) := by
  refine ⟨?_, ?_, ?_⟩
  · intro v hv
    simp [parse_report2, hv, Option.orElse]
  · intro hplug v hv
    simp [parse_report2, hplug, hv, Option.orElse]
  · intro hplug hstate
    simp [parse_report2, hplug, hstate, Option.orElse]

/-- Witness for the amended C8: the plug branch, the state fallback and
the missing-field error each evaluated at a concrete payload. -/
theorem parse_report2_plugged_characterization_witness :
    (parse_report2 (Json.obj [("Plug", Json.num 7)]) =
      .ok ⟨decide ((0:ℚ) < 7), (find_number [("Plug", Json.num 7)] SECONDS_KEYS).bind
        f64_to_non_negative_u64⟩) ∧
    (parse_report2 (Json.obj [("state", Json.num 1)]) =
      .ok ⟨decide ((0:ℚ) < 1), (find_number [("state", Json.num 1)] SECONDS_KEYS).bind
        f64_to_non_negative_u64⟩) ∧
    (parse_report2 (Json.obj [("Seconds", Json.num 100)]) =
      .error (.MissingField "Plug|State")) :=
  ⟨(parse_report2_plugged_characterization [("Plug", Json.num 7)]).1 7 (by decide),
   (parse_report2_plugged_characterization [("state", Json.num 1)]).2.1 (by decide) 1 (by decide),
   (parse_report2_plugged_characterization [("Seconds", Json.num 100)]).2.2
     (by decide) (by decide)⟩

/-! ## src/adapters/db.rs -/

def LATEST_SCHEMA_VERSION : Nat := 5

inductive ErrorCode where
  | DatabaseBusy
  | DatabaseLocked
  | OtherErrorCode
  deriving DecidableEq, Repr

/-- rusqlite `Error`, restricted to the shape `is_retryable_db_contention`
inspects: `SqliteFailure` carries its primary `ErrorCode` (the optional
message payload is never read); every other rusqlite variant is collapsed
into one constructor since they are all treated alike. -/
inductive RusqliteError where
  | SqliteFailure (code : ErrorCode)
  | OtherRusqliteError
  deriving DecidableEq, Repr

inductive DbError where
  | Sqlite (e : RusqliteError)
  | UnsupportedSchemaVersion (current latest : Nat)
  deriving DecidableEq, Repr

/-- A database: the on-disk `user_version` pragma plus abstract content
(tables and rows).  Each migration script is an opaque content
transformer; the claims under study depend only on which scripts run and
how `user_version` evolves. -/
structure Db (α : Type) where
  user_version : Nat
  content : α

/-- The `MIGRATIONS` list: `(version, script)` pairs for versions 1–5,
with the SQL scripts abstracted into content transformers. -/
def MIGRATIONS {α : Type} (s₁ s₂ s₃ s₄ s₅ : α → α) : List (Nat × (α → α)) :=
  [(1, s₁), (2, s₂), (3, s₃), (4, s₄), (5, s₅)]

/-- `run_migrations`: reads `user_version` once, refuses a version above
the latest known one, otherwise applies every step whose version exceeds
the initial version, in order, inside a single transaction, updating
`user_version` to each applied step's version. -/
def run_migrations {α : Type} (migrations : List (Nat × (α → α))) (db : Db α) :
    Except DbError (Db α) :=
  if db.user_version > LATEST_SCHEMA_VERSION then
    .error (.UnsupportedSchemaVersion db.user_version LATEST_SCHEMA_VERSION)
  else
    .ok (migrations.foldl
      (fun d step =>
        if step.1 > db.user_version then
          { user_version := step.1, content := step.2 d.content }
        else d)
      db)

/-- Claim C4: `run_migrations` fails with `UnsupportedSchemaVersion`
exactly when the on-disk `user_version` exceeds the latest known version
5, leaving the database unchanged (the error path returns before the
transaction opens); for every version at most 5 it succeeds with
`user_version = 5`, and running it again applies no migration step and
returns the database completely unchanged, preserving `user_version` and
all previously inserted rows. -/
lemma run_migrations_at_latest {α : Type} (s₁ s₂ s₃ s₄ s₅ : α → α) (db : Db α)
    (h : db.user_version = 5) : run_migrations (MIGRATIONS s₁ s₂ s₃ s₄ s₅) db = .ok db := by
  obtain ⟨v, c⟩ := db
  simp only at h
  subst h
  rfl

lemma run_migrations_reaches_latest {α : Type} (s₁ s₂ s₃ s₄ s₅ : α → α) (v : Nat) (c : α)
    (hv : v ≤ 5) :
    ∃ db2, run_migrations (MIGRATIONS s₁ s₂ s₃ s₄ s₅) ⟨v, c⟩ = .ok db2 ∧
      db2.user_version = 5 := by
  interval_cases v <;> exact ⟨_, rfl, rfl⟩

theorem run_migrations_version_behavior {α : Type} (s₁ s₂ s₃ s₄ s₅ : α → α) (db : Db α) :
    (db.user_version > 5 →
      run_migrations (MIGRATIONS s₁ s₂ s₃ s₄ s₅) db =
        .error (.UnsupportedSchemaVersion db.user_version 5)) ∧
    (db.user_version ≤ 5 →
      ∃ db2, run_migrations (MIGRATIONS s₁ s₂ s₃ s₄ s₅) db = .ok db2 ∧
        db2.user_version = 5 ∧
        run_migrations (MIGRATIONS s₁ s₂ s₃ s₄ s₅) db2 = .ok db2) := by
  obtain ⟨v, content⟩ := db
  constructor
  · intro h
    simp only at h
    simp [run_migrations, LATEST_SCHEMA_VERSION, h]
  · intro h
    simp only at h
    obtain ⟨db2, hrun, h5⟩ := run_migrations_reaches_latest s₁ s₂ s₃ s₄ s₅ v content h
    exact ⟨db2, hrun, h5, run_migrations_at_latest s₁ s₂ s₃ s₄ s₅ db2 h5⟩

/-- Witness for C4: a database at version 7 is refused, one at version 0
migrates to version 5 and a rerun is a no-op. -/
theorem run_migrations_version_behavior_witness :
    (run_migrations (MIGRATIONS id id id id id) (⟨7, 0⟩ : Db Nat) =
      .error (.UnsupportedSchemaVersion 7 5)) ∧
    (∃ db2, run_migrations (MIGRATIONS id id id id id) (⟨0, 0⟩ : Db Nat) = .ok db2 ∧
      db2.user_version = 5 ∧
      run_migrations (MIGRATIONS id id id id id) db2 = .ok db2) :=
  ⟨(run_migrations_version_behavior id id id id id ⟨7, 0⟩).1 (by norm_num),
   (run_migrations_version_behavior id id id id id ⟨0, 0⟩).2 (by norm_num)⟩

/-- `NewSessionRecord` from src/domain/models.rs, field for field
(ISO-8601 timestamp strings stay `String`, `f64` energy is `ℚ`).  Note
the type of `started_at`: models.rs declares it `String`, not
`Option<String>`. -/
structure NewSessionRecord where
  started_at : String
  finished_at : String
  duration_ms : Int
  energy_kwh : ℚ
  source : String
  status : String
  started_reason : String
  finished_reason : String
  poll_interval_ms : Int
  debounce_samples : Int
  error_count_during_session : Int
  station_id : Option String
  created_at : String
  raw_report2_start : Option String
  raw_report3_start : Option String
  raw_report2_end : Option String
  raw_report3_end : Option String

/-- Columns `(name, notNull)` of `charging_sessions` as created by the
version-5 migration script (`charging_sessions_v3`, then renamed); `true`
marks an explicit `NOT NULL` constraint in the DDL. -/
def charging_sessions_v3_columns : List (String × Bool) :=
  [("id", false), ("started_at", false), ("finished_at", true), ("duration_ms", true),
   ("energy_kwh", true), ("source", true), ("status", true), ("started_reason", true),
   ("finished_reason", true), ("poll_interval_ms", true), ("debounce_samples", true),
   ("error_count_during_session", true), ("station_id", false), ("created_at", true),
   ("raw_report2_start", false), ("raw_report3_start", false), ("raw_report2_end", false),
   ("raw_report3_end", false)]

/-- Claim C9 (evidence for the code bug): the version-5 schema permits
NULL in `started_at` (no NOT NULL constraint) while requiring
`finished_at`; but the `NewSessionRecord` type of models.rs makes
`started_at` a required `String`, so a session record with no
`started_at` cannot even be constructed and passed to `insert_session`,
contradicting the claim and the db.rs unit tests (which build records
with `started_at: None` and read `None` back). -/
theorem started_at_required_in_record_but_nullable_in_schema :
    charging_sessions_v3_columns.lookup "started_at" = some false ∧
    charging_sessions_v3_columns.lookup "finished_at" = some true ∧
    ∀ r : NewSessionRecord, ∃ s : String, r.started_at = s :=
  ⟨by decide, by decide, fun r => ⟨r.started_at, rfl⟩⟩

/-! ## src/app/runtime.rs -/

def SESSION_PERSIST_MAX_RETRIES : Nat := 3

def SESSION_PERSIST_RETRY_BACKOFF_MS : Nat := 250

inductive ServiceError where
  | DbLockPoisoned
  | Database (e : DbError)
  deriving DecidableEq, Repr

/-- `is_retryable_db_contention`. -/
def is_retryable_db_contention : ServiceError → Bool
  | .DbLockPoisoned => false
  | .Database (.Sqlite (.SqliteFailure code)) =>
      code == ErrorCode.DatabaseBusy || code == ErrorCode.DatabaseLocked
  | _ => false

/-- Outcome of the retry loop around one storage command: the final
result, how many times the command was invoked, and the sleeps performed
(in milliseconds, in order). -/
structure RetryOutcome (β : Type) where
  result : Except ServiceError β
  calls : Nat
  sleeps_ms : List Nat

/-- The retry loop of `persist_session_and_finalize` around one storage
command.  `op n` is the outcome of invocation number `n` (0-based) of the
command against the store; `attempt` is the Rust `insert_attempt` /
`link_attempt` counter, and `fuel = SESSION_PERSIST_MAX_RETRIES - attempt`
expresses the loop guard `attempt < SESSION_PERSIST_MAX_RETRIES`.  On a
retryable (busy/locked) error with retries left, the loop sleeps
`SESSION_PERSIST_RETRY_BACKOFF_MS * (attempt + 1)` ms and calls again; any
other error, or exhausted retries, returns the error. -/
def retry_with_backoff {β : Type} (op : Nat → Except ServiceError β) :
    Nat → Nat → RetryOutcome β
  | attempt, fuel =>
    match op attempt with
    | .ok value => ⟨.ok value, 1, []⟩
    | .error e =>
      if is_retryable_db_contention e then
        match fuel with
        | 0 => ⟨.error e, 1, []⟩
        | fuel2 + 1 =>
          let rest := retry_with_backoff op (attempt + 1) fuel2
          ⟨rest.result, rest.calls + 1,
            SESSION_PERSIST_RETRY_BACKOFF_MS * (attempt + 1) :: rest.sleeps_ms⟩
      else ⟨.error e, 1, []⟩

/-- `persist_session_and_finalize`: the session-insert retry loop, then
the log-event-link retry loop (whose oracle may depend on the returned
session id); gives back the overall result together with every sleep
performed.  A failure of either loop surfaces immediately as the error of
the tick. -/
def persist_session_and_finalize {β γ : Type}
    (insert_op : Nat → Except ServiceError β)
    (link_op : β → Nat → Except ServiceError γ) :
    Except ServiceError β × List Nat :=
  let ins := retry_with_backoff insert_op 0 SESSION_PERSIST_MAX_RETRIES
  match ins.result with
  | .error e => (.error e, ins.sleeps_ms)
  | .ok session_id =>
    let lnk := retry_with_backoff (link_op session_id) 0 SESSION_PERSIST_MAX_RETRIES
    match lnk.result with
    | .error e => (.error e, ins.sleeps_ms ++ lnk.sleeps_ms)
    | .ok _ => (.ok session_id, ins.sleeps_ms ++ lnk.sleeps_ms)

lemma retry_with_backoff_spec {β : Type} (op : Nat → Except ServiceError β)
    (attempt fuel : Nat) :
    1 ≤ (retry_with_backoff op attempt fuel).calls ∧
    (retry_with_backoff op attempt fuel).calls ≤ fuel + 1 ∧
    (retry_with_backoff op attempt fuel).sleeps_ms =
      (List.range ((retry_with_backoff op attempt fuel).calls - 1)).map
        (fun k => SESSION_PERSIST_RETRY_BACKOFF_MS * (attempt + k + 1)) ∧
    (∀ i, i + 1 < (retry_with_backoff op attempt fuel).calls →
      ∃ e, op (attempt + i) = .error e ∧ is_retryable_db_contention e = true) ∧
    (retry_with_backoff op attempt fuel).result =
      op (attempt + ((retry_with_backoff op attempt fuel).calls - 1)) := by
  induction fuel generalizing attempt with
  | zero =>
    rw [retry_with_backoff]
    rcases hop : op attempt with e | value
    · by_cases hr : is_retryable_db_contention e = true <;>
        simp [hop, hr]
    · simp [hop]
  | succ fuel2 ih =>
    rw [retry_with_backoff]
    rcases hop : op attempt with e | value
    · by_cases hr : is_retryable_db_contention e = true
      · obtain ⟨ih1, ih2, ih3, ih4, ih5⟩ := ih (attempt + 1)
        simp only [hop, hr, if_true]
        refine ⟨by omega, by omega, ?_, ?_, ?_⟩
        · simp only [Nat.add_sub_cancel]
          rw [show (retry_with_backoff op (attempt + 1) fuel2).calls =
              ((retry_with_backoff op (attempt + 1) fuel2).calls - 1) + 1 by omega]
          rw [List.range_succ_eq_map, List.map_cons, List.map_map, ih3]
          refine congrArg₂ _ (by ring_nf) ?_
          refine congrArg
            (fun fn => List.map fn
              (List.range ((retry_with_backoff op (attempt + 1) fuel2).calls - 1)))
            (funext fun k => ?_)
          simp only [Function.comp_def, Nat.succ_eq_add_one]
          ring
        · intro i hi
          have hi2 : i + 1 < (retry_with_backoff op (attempt + 1) fuel2).calls + 1 := hi
          match i with
          | 0 =>
            refine ⟨e, ?_, hr⟩
            simpa using hop
          | j + 1 =>
            have hj := ih4 j (by omega)
            rw [show attempt + (j + 1) = attempt + 1 + j by ring]
            exact hj
        · show (retry_with_backoff op (attempt + 1) fuel2).result =
            op (attempt + ((retry_with_backoff op (attempt + 1) fuel2).calls + 1 - 1))
          rw [ih5]
          refine congrArg _ (by omega)
      · simp [hop, hr]
    · simp [hop]

/-- Claim C5: during session persistence both the session insert and the
log-event link insert are invoked at most 1 + 3 times, i.e. retried at
most `SESSION_PERSIST_MAX_RETRIES = 3` times; every invocation that was
followed by a retry had failed with a busy/locked error as classified by
`is_retryable_db_contention`; the sleep before retry `k` is
`SESSION_PERSIST_RETRY_BACKOFF_MS * k = 250·k` ms; a `DbLockPoisoned`
error is never retried; and a non-retryable error of the first insert
invocation is returned immediately from the tick with no sleep. -/
theorem persist_retry_policy {β γ : Type}
    (insert_op : Nat → Except ServiceError β) (link_op : β → Nat → Except ServiceError γ) :
    ((retry_with_backoff insert_op 0 SESSION_PERSIST_MAX_RETRIES).calls ≤ 4 ∧
      ∀ b, (retry_with_backoff (link_op b) 0 SESSION_PERSIST_MAX_RETRIES).calls ≤ 4) ∧
    ((retry_with_backoff insert_op 0 SESSION_PERSIST_MAX_RETRIES).sleeps_ms =
      (List.range ((retry_with_backoff insert_op 0 SESSION_PERSIST_MAX_RETRIES).calls - 1)).map
        (fun k => SESSION_PERSIST_RETRY_BACKOFF_MS * (k + 1)) ∧
      ∀ b, (retry_with_backoff (link_op b) 0 SESSION_PERSIST_MAX_RETRIES).sleeps_ms =
        (List.range
          ((retry_with_backoff (link_op b) 0 SESSION_PERSIST_MAX_RETRIES).calls - 1)).map
          (fun k => SESSION_PERSIST_RETRY_BACKOFF_MS * (k + 1))) ∧
    (∀ i, i + 1 < (retry_with_backoff insert_op 0 SESSION_PERSIST_MAX_RETRIES).calls →
      ∃ e, insert_op i = .error e ∧ is_retryable_db_contention e = true) ∧
    (∀ i, insert_op i = .error .DbLockPoisoned →
      ¬ (i + 1 < (retry_with_backoff insert_op 0 SESSION_PERSIST_MAX_RETRIES).calls)) ∧
    (∀ e, insert_op 0 = .error e → is_retryable_db_contention e = false →
      persist_session_and_finalize insert_op link_op = (.error e, [])) := by
  have hins := retry_with_backoff_spec insert_op 0 SESSION_PERSIST_MAX_RETRIES
  refine ⟨⟨hins.2.1, fun b => (retry_with_backoff_spec (link_op b) 0 _).2.1⟩, ⟨?_, fun b => ?_⟩,
      ?_, ?_, ?_⟩
  · simpa using hins.2.2.1
  · simpa using (retry_with_backoff_spec (link_op b) 0 SESSION_PERSIST_MAX_RETRIES).2.2.1
  · intro i hi
    simpa using hins.2.2.2.1 i hi
  · intro i hpoison hlt
    obtain ⟨e, he, hr⟩ := hins.2.2.2.1 i hlt
    rw [Nat.zero_add] at he
    rw [hpoison] at he
    cases he
    simp [is_retryable_db_contention] at hr
  · intro e h0 hr
    simp [persist_session_and_finalize, SESSION_PERSIST_MAX_RETRIES, retry_with_backoff, h0, hr]

/-- Witness for C5: a permanently busy insert is called exactly 4 times
with sleeps 250, 500, 750 ms; a lock-poisoned insert is returned at once
with no retries and no sleeps. -/
theorem persist_retry_policy_witness :
    (∀ i, i + 1 < (retry_with_backoff (β := Unit)
        (fun _ => .error (.Database (.Sqlite (.SqliteFailure .DatabaseBusy)))) 0
        SESSION_PERSIST_MAX_RETRIES).calls →
      ∃ e, (fun _ => (.error (.Database (.Sqlite (.SqliteFailure .DatabaseBusy)))
              : Except ServiceError Unit)) i = .error e ∧
        is_retryable_db_contention e = true) ∧
    persist_session_and_finalize (β := Unit) (γ := Unit)
        (fun _ => .error ServiceError.DbLockPoisoned) (fun _ _ => .ok ()) =
      (.error ServiceError.DbLockPoisoned, []) :=
  ⟨(persist_retry_policy (fun _ => .error (.Database (.Sqlite (.SqliteFailure .DatabaseBusy))))
      (fun _ _ => (.ok () : Except ServiceError Unit))).2.2.1,
   (persist_retry_policy (fun _ => .error ServiceError.DbLockPoisoned)
      (fun _ _ => (.ok () : Except ServiceError Unit))).2.2.2.2 ServiceError.DbLockPoisoned
      rfl rfl⟩

/-- `KebaClientError` of the charger client; the payloads of the Rust
variants (io / serde errors) are never inspected by the poller. -/
inductive KebaClientError where
  | Resolve
  | Io
  | Json
  deriving DecidableEq, Repr

/-- The `SessionCompletion` data `handle_unplugged` passes to
`build_session_record`; raw payload fragments are kept as `Json` values
where the Rust code stores their `to_string()` rendering. -/
structure SessionCompletion where
  energy_kwh : ℚ
  status : String
  finished_reason : String
  report2_end_raw : Json
  report3_end_raw : Option Json

/-- The session row assembled by `build_session_record`.  The fields
copied verbatim from the poller configuration (`source`, `station_id`,
`poll_interval_ms`, `debounce_samples`, `error_count_during_session`, the
raw start payloads) are orthogonal to the claims under study and are
omitted; timestamps stay in epoch milliseconds instead of their ISO-8601
rendering. -/
structure SessionRow where
  started_at : TimestampMs
  finished_at : TimestampMs
  duration_ms : Int
  energy_kwh : ℚ
  status : String
  started_reason : String
  finished_reason : String
  created_at : TimestampMs
  raw_report2_end : Option Json
  raw_report3_end : Option Json

/-- `SessionPoller::build_session_record`. -/
def build_session_record (plugged_at unplugged_at : TimestampMs)
    (completion : SessionCompletion) : SessionRow :=
  { started_at := plugged_at
    finished_at := unplugged_at
    duration_ms := max (unplugged_at - plugged_at) 0
    energy_kwh := completion.energy_kwh
    status := completion.status
    started_reason := "plug_state_transition"
    finished_reason := completion.finished_reason
    created_at := unplugged_at
    raw_report2_end := some completion.report2_end_raw
    raw_report3_end := completion.report3_end_raw }

/-- `SessionResultEntry` of the results output file; `from`/`to` are the
ISO-8601 renderings of these timestamps in the Rust code. -/
structure SessionResultEntry where
  «from» : TimestampMs
  «to» : TimestampMs
  durationMs : Int
  kwh : ℚ

/-- `SessionPoller::handle_unplugged` as the pure decision pipeline: the
energy-report fetch result is the `report3_fetch` argument (what
`client.get_report3()` returned), persistence is taken to succeed (the
retry behavior around it is modelled by `persist_session_and_finalize`),
and the result is the session row handed to persistence together with the
entry appended to the results file — `none` when no results file is
configured or when the code path returns before the append. -/
def handle_unplugged (results_output_configured : Bool)
    (start_snapshot : Option EnergySnapshot) (plugged_at unplugged_at : TimestampMs)
    (report2_raw : Json) (report3_fetch : Except KebaClientError Json) :
    SessionRow × Option SessionResultEntry :=
  match report3_fetch with
  | .error _ =>
    (build_session_record plugged_at unplugged_at
      ⟨0, "aborted", "report3_fetch_failed", report2_raw, none⟩, none)
  | .ok report3_raw =>
    match parse_report3 report3_raw with
    | .error _ =>
      (build_session_record plugged_at unplugged_at
        ⟨0, "invalid", "report3_parse_failed", report2_raw, some report3_raw⟩, none)
    | .ok report3 =>
      let completion : ℚ × String × String :=
        match compute_session_kwh start_snapshot
            ⟨report3.present_session_kwh, report3.total_kwh⟩ with
        | .ok energy =>
          if energy.warnings = [] then (energy.kwh, "completed", "plug_state_transition")
          else (energy.kwh, "invalid", "energy_clamped")
        | .error _ => (0, "invalid", "energy_compute_failed")
      let row := build_session_record plugged_at unplugged_at
        ⟨completion.1, completion.2.1, completion.2.2, report2_raw, some report3_raw⟩
      (row,
        if results_output_configured then
          some ⟨plugged_at, unplugged_at, max (unplugged_at - plugged_at) 0, row.energy_kwh⟩
        else none)

/-- The prior state of the results output file as `append_session_result`
reads it: no file, a file whose content trims to empty, a well-formed
JSON array of entries, or unparsable content. -/
inductive ResultsFile where
  | missing
  | blank
  | parsed (entries : List SessionResultEntry)
  | malformed

/-- The filesystem state around the configured results path: whether the
chain of parent directories of the path exists, and the file itself. -/
structure ResultsFs where
  parent_dir_exists : Bool
  file : ResultsFile

/-- `append_session_result` on that filesystem state, mirroring the Rust
order: read the existing array (a missing file or one whose content trims
to empty starts a fresh array; unparsable content is an error, mapped to
`InvalidData`), push the entry, then — when the path has a non-empty
parent — `fs::create_dir_all` that parent (creating it if missing, a
no-op if it already exists), and write the new array back.
`path_has_parent` is whether `Path::new(path).parent()` yields a
non-empty path. -/
def append_session_result (path_has_parent : Bool) (state : ResultsFs)
    (entry : SessionResultEntry) : Except Unit ResultsFs :=
  match state.file with
  | .missing => .ok ⟨state.parent_dir_exists || path_has_parent, .parsed [entry]⟩
  | .blank => .ok ⟨state.parent_dir_exists || path_has_parent, .parsed [entry]⟩
  | .parsed entries =>
      .ok ⟨state.parent_dir_exists || path_has_parent, .parsed (entries ++ [entry])⟩
  | .malformed => .error ()

/-- Claim C3: on an Unplugged transition the persisted session row has
(status, finished_reason, energy_kwh) determined by the failure mode:
energy-report fetch failure gives (aborted, report3_fetch_failed, 0) with
`raw_report3_end` null; energy-report parse failure gives (invalid,
report3_parse_failed, 0); non-empty energy warnings give (invalid,
energy_clamped, 0); energy computation failure gives (invalid,
energy_compute_failed, 0); the all-clean case gives (completed,
plug_state_transition) with the computed kwh. -/
theorem handle_unplugged_row_outcomes (cfg : Bool) (start : Option EnergySnapshot)
    (p u : TimestampMs) (r2 : Json) (fetch : Except KebaClientError Json) :
    (∀ err, fetch = .error err →
      (handle_unplugged cfg start p u r2 fetch).1.status = "aborted" ∧
      (handle_unplugged cfg start p u r2 fetch).1.finished_reason = "report3_fetch_failed" ∧
      (handle_unplugged cfg start p u r2 fetch).1.energy_kwh = 0 ∧
      (handle_unplugged cfg start p u r2 fetch).1.raw_report3_end = none) ∧
    (∀ raw perr, fetch = .ok raw → parse_report3 raw = .error perr →
      (handle_unplugged cfg start p u r2 fetch).1.status = "invalid" ∧
      (handle_unplugged cfg start p u r2 fetch).1.finished_reason = "report3_parse_failed" ∧
      (handle_unplugged cfg start p u r2 fetch).1.energy_kwh = 0) ∧
    (∀ raw rep en, fetch = .ok raw → parse_report3 raw = .ok rep →
      compute_session_kwh start ⟨rep.present_session_kwh, rep.total_kwh⟩ = .ok en →
      en.warnings ≠ [] →
      (handle_unplugged cfg start p u r2 fetch).1.status = "invalid" ∧
      (handle_unplugged cfg start p u r2 fetch).1.finished_reason = "energy_clamped" ∧
      (handle_unplugged cfg start p u r2 fetch).1.energy_kwh = 0) ∧
    (∀ raw rep cerr, fetch = .ok raw → parse_report3 raw = .ok rep →
      compute_session_kwh start ⟨rep.present_session_kwh, rep.total_kwh⟩ = .error cerr →
      (handle_unplugged cfg start p u r2 fetch).1.status = "invalid" ∧
      (handle_unplugged cfg start p u r2 fetch).1.finished_reason = "energy_compute_failed" ∧
      (handle_unplugged cfg start p u r2 fetch).1.energy_kwh = 0) ∧
    (∀ raw rep en, fetch = .ok raw → parse_report3 raw = .ok rep →
      compute_session_kwh start ⟨rep.present_session_kwh, rep.total_kwh⟩ = .ok en →
      en.warnings = [] →
      (handle_unplugged cfg start p u r2 fetch).1.status = "completed" ∧
      (handle_unplugged cfg start p u r2 fetch).1.finished_reason = "plug_state_transition" ∧
      (handle_unplugged cfg start p u r2 fetch).1.energy_kwh = en.kwh) := by
  refine ⟨?_, ?_, ?_, ?_, ?_⟩
  · rintro err rfl
    simp [handle_unplugged, build_session_record]
  · rintro raw perr rfl hparse
    simp [handle_unplugged, build_session_record, hparse]
  · rintro raw rep en rfl hparse hcompute hw
    have hz := compute_session_kwh_warnings_zero start
      ⟨rep.present_session_kwh, rep.total_kwh⟩ en hcompute hw
    simp [handle_unplugged, build_session_record, hparse, hcompute, hw, hz.1]
  · rintro raw rep cerr rfl hparse hcompute
    simp [handle_unplugged, build_session_record, hparse, hcompute]
  · rintro raw rep en rfl hparse hcompute hw
    simp [handle_unplugged, build_session_record, hparse, hcompute, hw]

/-- Witness for C3: the fetch-failure case and the all-clean case, each
evaluated on concrete inputs (`E pres` of 5000 Wh, no start snapshot,
giving 5 kWh from the absolute present-session value). -/
theorem handle_unplugged_row_outcomes_witness :
    ((handle_unplugged true none 0 10 (Json.obj []) (.error .Io)).1.status = "aborted" ∧
     (handle_unplugged true none 0 10 (Json.obj [])
        (.error .Io)).1.finished_reason = "report3_fetch_failed" ∧
     (handle_unplugged true none 0 10 (Json.obj []) (.error .Io)).1.energy_kwh = 0 ∧
     (handle_unplugged true none 0 10 (Json.obj []) (.error .Io)).1.raw_report3_end = none) ∧
    ((handle_unplugged true none 0 10 (Json.obj [])
        (.ok (Json.obj [("E pres", Json.num 5000)]))).1.status = "completed" ∧
     (handle_unplugged true none 0 10 (Json.obj [])
        (.ok (Json.obj [("E pres", Json.num 5000)]))).1.finished_reason =
          "plug_state_transition" ∧
     (handle_unplugged true none 0 10 (Json.obj [])
        (.ok (Json.obj [("E pres", Json.num 5000)]))).1.energy_kwh =
          (⟨5, .PresentSession, []⟩ : SessionEnergyResult).kwh) :=
  ⟨(handle_unplugged_row_outcomes true none 0 10 (Json.obj []) (.error .Io)).1 .Io rfl,
   (handle_unplugged_row_outcomes true none 0 10 (Json.obj [])
      (.ok (Json.obj [("E pres", Json.num 5000)]))).2.2.2.2
      (Json.obj [("E pres", Json.num 5000)]) ⟨some 5, none⟩ ⟨5, .PresentSession, []⟩
      rfl (by decide) (by norm_num [compute_session_kwh]) rfl⟩

/-- Counterexample to C6 as stated: even with a results output file
configured, an energy-report fetch failure persists an aborted session
row yet appends no entry to the results file (`handle_unplugged` returns
before reaching the append). -/
theorem handle_unplugged_results_counterexample :
    (handle_unplugged true none 0 10 (Json.obj []) (.error .Io)).1.status = "aborted" ∧
    (handle_unplugged true none 0 10 (Json.obj []) (.error .Io)).2 = none :=
  ⟨rfl, rfl⟩

/-- Claim C6 (amended): when a results output file is configured, exactly
the sessions persisted through the energy-computation path (status
completed, or invalid with reason energy_clamped or energy_compute_failed)
are followed by appending one entry whose from/to/durationMs/kwh fields
come from the session, creating parent directories as needed and treating
an empty or missing file as a fresh array (otherwise the single entry is
appended at the end of the parsed array); sessions persisted after an
energy-report fetch failure (aborted) or parse failure
(invalid/report3_parse_failed) append nothing.  The last conjunct states
the directory creation: after any successful append on a path that has a
non-empty parent, that parent directory exists — created when it was
missing, untouched when it already existed. -/
theorem handle_unplugged_results_characterization (cfg : Bool)
    (start : Option EnergySnapshot) (p u : TimestampMs) (r2 : Json)
    (fetch : Except KebaClientError Json) :
    ((handle_unplugged cfg start p u r2 fetch).2 ≠ none ↔
      (cfg = true ∧ ∃ raw rep, fetch = .ok raw ∧ parse_report3 raw = .ok rep)) ∧
    (∀ en, (handle_unplugged cfg start p u r2 fetch).2 = some en →
      en = ⟨p, u, max (u - p) 0, (handle_unplugged cfg start p u r2 fetch).1.energy_kwh⟩) ∧
    (∀ hp pd entries entry,
      append_session_result hp ⟨pd, .parsed entries⟩ entry =
        .ok ⟨pd || hp, .parsed (entries ++ [entry])⟩) ∧
    (∀ hp pd entry,
      append_session_result hp ⟨pd, .missing⟩ entry = .ok ⟨pd || hp, .parsed [entry]⟩ ∧
      append_session_result hp ⟨pd, .blank⟩ entry = .ok ⟨pd || hp, .parsed [entry]⟩) ∧
    (∀ hp state entry state2,
      append_session_result hp state entry = .ok state2 →
      hp = true → state2.parent_dir_exists = true) := by
  refine ⟨?_, ?_, fun hp pd entries entry => rfl, fun hp pd entry => ⟨rfl, rfl⟩, ?_⟩
  · rcases fetch with err | raw
    · simp [handle_unplugged]
    · rcases hparse : parse_report3 raw with perr | rep
      · simp [handle_unplugged, hparse]
      · rcases hcompute : compute_session_kwh start
            ⟨rep.present_session_kwh, rep.total_kwh⟩ with cerr | en
        · cases cfg <;> simp [handle_unplugged, hparse, hcompute]
        · by_cases hw : en.warnings = [] <;> cases cfg <;>
            simp [handle_unplugged, hparse, hcompute, hw]
  · intro en hen
    rcases fetch with err | raw
    · simp [handle_unplugged] at hen
    · rcases hparse : parse_report3 raw with perr | rep
      · simp [handle_unplugged, hparse] at hen
      · rcases hcompute : compute_session_kwh start
            ⟨rep.present_session_kwh, rep.total_kwh⟩ with cerr | e
        · cases cfg <;> simp_all [handle_unplugged, hparse, hcompute]
        · by_cases hw : e.warnings = [] <;> cases cfg <;>
            simp_all [handle_unplugged, hparse, hcompute, hw, build_session_record]
  · rintro hp ⟨pd, file⟩ entry state2 happ rfl
    cases file <;> simp [append_session_result] at happ <;> simp [← happ]

/-- Witness for the amended C6: with a results file configured, a clean
unplug appends exactly one entry; the append on a path whose parent
directory is missing succeeds, leaving the parent directory created and
the entry at the end of the previously parsed array. -/
theorem handle_unplugged_results_characterization_witness :
    ((handle_unplugged true none 0 10 (Json.obj [])
        (.ok (Json.obj [("E pres", Json.num 5000)]))).2 ≠ none) ∧
    (append_session_result true ⟨false, .parsed []⟩ ⟨0, 10, 10, 5⟩ =
      .ok ⟨false || true, .parsed [⟨0, 10, 10, 5⟩]⟩) ∧
    (∀ state2, append_session_result true ⟨false, .parsed []⟩ ⟨0, 10, 10, 5⟩ = .ok state2 →
      state2.parent_dir_exists = true) :=
  ⟨(handle_unplugged_results_characterization true none 0 10 (Json.obj [])
      (.ok (Json.obj [("E pres", Json.num 5000)]))).1.mpr
      ⟨rfl, Json.obj [("E pres", Json.num 5000)], ⟨some 5, none⟩, rfl, by decide⟩,
   (handle_unplugged_results_characterization true none 0 10 (Json.obj [])
      (.ok (Json.obj [("E pres", Json.num 5000)]))).2.2.1 true false [] ⟨0, 10, 10, 5⟩,
   fun state2 happ =>
     (handle_unplugged_results_characterization true none 0 10 (Json.obj [])
        (.ok (Json.obj [("E pres", Json.num 5000)]))).2.2.2.2 true ⟨false, .parsed []⟩
        ⟨0, 10, 10, 5⟩ state2 happ rfl⟩

end Keba
